import Mathlib

/-!
Shallow embedding of the scalper trading-bot core (src/bot.py,
src/health_monitor.py, src/core/data_manager.py, src/exchange_apis.py),
with theorems settling the specification claims about it.

Conventions of the embedding:
* Python dictionaries holding trade and failure state become association
  lists; nested dictionaries keyed by `(exchange, strategy, instrument)`
  become flat association lists keyed by the triple.
* Prices and OHLCV values are only stored and compared, never used in
  arithmetic by the code paths under study, so they are modelled as `Int`.
* Timestamps are integer seconds since the epoch; wall-clock reads
  (`time.time()`, `datetime.now()`) become explicit `now : Int` parameters.
* External collaborators (the TA-Lib indicator library, the random mock
  data generator) are passed in as function parameters.
-/

namespace Scalper

/-! ## Trading engine (src/bot.py, class TradingEngine) -/

/-- Key of an active trade: `(exchange, strategy, instrument)`.
In the source this is the nesting path
`active_trades[exchange][strat_name][pair]`. -/
abbrev TradeKey := String × String × String

/-- One active trade record, `{'entry_price': price, 'direction': direction}`
(bot.py line 187). -/
structure ActiveTrade where
  entry_price : Int
  direction : String
deriving Repr, DecidableEq

/-- The mutable trade state of `TradingEngine`: the nested
`active_trades` dictionaries flattened to an association list keyed by
the `(exchange, strategy, instrument)` triple. -/
structure EngineState where
  active_trades : List (TradeKey × ActiveTrade)
deriving Repr, DecidableEq

/-- The `signals` dictionary handed to `execute_trades` after
`check_signals` populated it and `process_pair` added the exchange
(bot.py lines 163-175 and 322-324). -/
structure Signals where
  exchange : String
  pair : String
  price : Int
  trigger_strategy : String
  signal_type : String
deriving Repr, DecidableEq

/-- The `(exchange, strategy, instrument)` key a signal addresses. -/
def Signals.key (s : Signals) : TradeKey := (s.exchange, s.trigger_strategy, s.pair)

/-- Embeds `TradingEngine.execute_trades` (bot.py lines 177-189).
Returns the Python return value and the updated engine state.
`auto_trading` is `Config.AUTO_TRADING`; the kill switch's
`trading_disabled` flag is NOT consulted here, exactly as in the source. -/
def execute_trades (auto_trading : Bool) (st : EngineState) (s : Signals) :
    Bool × EngineState :=
  if auto_trading = false then (false, st)
  else
    match st.active_trades.lookup s.key with
    | some _ => (false, st)
    | none =>
        (true, ⟨(s.key, ⟨s.price, s.signal_type⟩) :: st.active_trades⟩)

/-! ## Emergency kill switch (src/bot.py, class EmergencyKillSwitch) -/

/-- The kill switch's own state (bot.py lines 67-73); the execution log
and collaborator references are omitted as they carry no behaviour in
the paths under study. -/
structure KillSwitchState where
  is_active : Bool
  trading_disabled : Bool
deriving Repr, DecidableEq

/-- Embeds `EmergencyKillSwitch.__init__`: both flags start false. -/
def initKillSwitch : KillSwitchState := ⟨false, false⟩

/-- Embeds `EmergencyKillSwitch.execute_emergency_exit` (bot.py lines 78-88):
sets `trading_disabled`, deletes every symbol of every strategy of every
exchange from `active_trades` (the triple loop with `del`), and returns
`{'success': True}`.  On the flattened representation deleting every
entry leaves the empty list. -/
def execute_emergency_exit (ks : KillSwitchState) (st : EngineState) :
    KillSwitchState × EngineState × Bool :=
  ({ ks with trading_disabled := true }, ⟨[]⟩, true)

/-! ## Health monitor (src/health_monitor.py, class HealthMonitor) -/

/-- The `HealthMonitor` state (health_monitor.py lines 4-10): per-pair
API failure counters, a global db failure counter, the last successful
cycle timestamp and the blacklist set (modelled as a list without
duplicates thanks to the membership guard in `blacklist_pair`). -/
structure HealthState where
  api_failures : List (String × Nat)
  db_failures : Nat
  last_successful_cycle : Int
  pair_blacklist : List String
deriving Repr, DecidableEq

/-- Embeds `HealthMonitor.__init__` at wall-clock `now` (`time.time()`). -/
def initHealth (now : Int) : HealthState := ⟨[], 0, now, []⟩

/-- Store a counter value, overwriting the existing entry for the pair if
there is one (dictionary assignment `self.api_failures[pair] = n`). -/
def setFailure : List (String × Nat) → String → Nat → List (String × Nat)
  | [], p, n => [(p, n)]
  | (q, m) :: rest, p, n =>
      if q = p then (p, n) :: rest else (q, m) :: setFailure rest p n

/-- Read a counter with default 0 (`self.api_failures.get(pair, 0)`). -/
def getFailure (l : List (String × Nat)) (p : String) : Nat :=
  (l.lookup p).getD 0

/-- Embeds `HealthMonitor.blacklist_pair` (health_monitor.py lines 26-31): add
the pair to the blacklist if not already present (logging only otherwise). -/
def blacklist_pair (h : HealthState) (p : String) : HealthState :=
  if p ∈ h.pair_blacklist then h
  else { h with pair_blacklist := p :: h.pair_blacklist }

/-- Embeds `HealthMonitor.record_api_failure` (health_monitor.py lines 15-18):
increment the pair's counter; if the new count exceeds 5, blacklist it. -/
def record_api_failure (h : HealthState) (p : String) : HealthState :=
  let n := getFailure h.api_failures p + 1
  let h' := { h with api_failures := setFailure h.api_failures p n }
  if n > 5 then blacklist_pair h' p else h'

/-- Embeds `HealthMonitor.record_db_failure` (health_monitor.py lines 20-21). -/
def record_db_failure (h : HealthState) : HealthState :=
  { h with db_failures := h.db_failures + 1 }

/-- Embeds `HealthMonitor.record_successful_cycle` (health_monitor.py lines
23-24): reset the liveness timestamp to the current wall-clock. -/
def record_successful_cycle (h : HealthState) (now : Int) : HealthState :=
  { h with last_successful_cycle := now }

/-- Embeds `HealthMonitor.is_pair_blacklisted` (health_monitor.py lines 33-34). -/
def is_pair_blacklisted (h : HealthState) (p : String) : Bool :=
  h.pair_blacklist.contains p

/-- Embeds `HealthMonitor.check_process_health` (health_monitor.py lines 41-46):
returns whether the liveness warning fires, i.e. whether the time since
the last successful cycle exceeds five refresh intervals. -/
def check_process_health (h : HealthState) (now refresh_interval : Int) : Bool :=
  decide (now - h.last_successful_cycle > refresh_interval * 5)

/-- The state-mutating operations of `HealthMonitor`, used to quantify
over every state the monitor can reach from initialisation. -/
inductive HMOp where
  | apiFailure (p : String)
  | dbFailure
  | successfulCycle (t : Int)
  | blacklistPair (p : String)
deriving Repr, DecidableEq

/-- Apply one monitor operation. -/
def applyOp (h : HealthState) : HMOp → HealthState
  | .apiFailure p => record_api_failure h p
  | .dbFailure => record_db_failure h
  | .successfulCycle t => record_successful_cycle h t
  | .blacklistPair p => blacklist_pair h p

/-- Run a sequence of monitor operations from a starting state. -/
def runOps (h : HealthState) (ops : List HMOp) : HealthState :=
  ops.foldl applyOp h

/-! ## Cycle scheduler and per-pair processing (src/bot.py, class CryptoBot) -/

/-- One entry of `CryptoBot.pairs` (bot.py line 292). -/
structure PairInfo where
  symbol : String
  color : String
deriving Repr, DecidableEq

/-- The fan-out filter of `CryptoBot.run` (bot.py line 307):
`active_pairs = [p for p in self.pairs if not
self.health_monitor.is_pair_blacklisted(p["symbol"])]`. -/
def active_pairs (h : HealthState) (pairs : List PairInfo) : List PairInfo :=
  pairs.filter (fun p => !(is_pair_blacklisted h p.symbol))

/-- Outcome of the `try` body of `CryptoBot.process_pair` for one pair:
an exception anywhere in the fetch/process step, an early return (empty
or too-short data, or no strategy frames), no signal, or a signal. -/
inductive PairOutcome where
  | fetchError (msg : String)
  | noData
  | noSignal
  | signal (s : Signals)
deriving Repr, DecidableEq

/-- Embeds `CryptoBot.process_pair` (bot.py lines 311-326) as a state
transformer, parameterised by the outcome of its fetch/evaluate pipeline.
On a signal it calls `execute_trades`; the `except` branch (lines
325-326) only calls `logging.error` and therefore leaves both the engine
state and the health state unchanged — in particular it never calls
`HealthMonitor.record_api_failure`. -/
def process_pair (auto : Bool) (eng : EngineState) (h : HealthState) :
    PairOutcome → EngineState × HealthState
  | .fetchError _ => (eng, h)
  | .noData => (eng, h)
  | .noSignal => (eng, h)
  | .signal s => ((execute_trades auto eng s).2, h)

/-- One tick of the scheduler loop in `CryptoBot.run` (bot.py lines
299-309): filter out blacklisted pairs, then process every remaining
pair (the `asyncio.gather` fan-out, sequentialised — each pair's task
touches only its own key).  The loop body makes no call into the health
monitor other than `is_pair_blacklisted`. -/
def run_tick (auto : Bool) (eng : EngineState) (h : HealthState)
    (pairs : List PairInfo) (outcome : String → PairOutcome) :
    EngineState × HealthState :=
  (active_pairs h pairs).foldl
    (fun acc p => process_pair auto acc.1 acc.2 (outcome p.symbol)) (eng, h)

/-! ## Candle store (src/core/data_manager.py, class DatabaseManager) -/

/-- One row of the DataFrame handed to `save_candle_data`: the
`['open_time', 'open', 'high', 'low', 'close', 'volume']` columns
(data_manager.py line 88).  `open` is a Lean keyword, hence `open_`. -/
structure CandleInput where
  open_time : Int
  open_ : Int
  high : Int
  low : Int
  close : Int
  volume : Int
deriving Repr, DecidableEq

/-- One row of the `candles` table
(data_manager.py lines 66-78). -/
structure CandleRow where
  pair : String
  interval : String
  open_time : Int
  open_ : Int
  high : Int
  low : Int
  close : Int
  volume : Int
deriving Repr, DecidableEq

/-- The declared primary key `(pair, interval, open_time)`. -/
def rowKey (r : CandleRow) : String × String × Int :=
  (r.pair, r.interval, r.open_time)

/-- The row inserted for one DataFrame row: the `pair` and `interval`
literals plus the six placeholders of the `INSERT OR REPLACE` statement
(data_manager.py line 89). -/
def mkRow (pair interval : String) (c : CandleInput) : CandleRow :=
  ⟨pair, interval, c.open_time, c.open_, c.high, c.low, c.close, c.volume⟩

/-- SQLite `INSERT OR REPLACE` against the primary key: delete every row
conflicting on the key, then insert the new row. -/
def upsertRow (table : List CandleRow) (r : CandleRow) : List CandleRow :=
  table.filter (fun x => !(rowKey x == rowKey r)) ++ [r]

/-- Embeds `DatabaseManager.save_candle_data` (data_manager.py lines 82-93):
no-op on an empty DataFrame, otherwise `executemany` of the
`INSERT OR REPLACE` over the rows in order. -/
def save_candle_data (table : List CandleRow) (df : List CandleInput)
    (pair interval : String) : List CandleRow :=
  if df.isEmpty then table
  else df.foldl (fun acc c => upsertRow acc (mkRow pair interval c)) table

/-! ## Strategy framework (src/bot.py, class EMACCIStrategy) -/

/-- One DataFrame row as seen by the strategy: the OHLC columns plus the
indicator columns, which are `none` while absent (raw candle data) or
NaN (insufficient lookback for that indicator).  In pandas,
`row.get(col)` on a missing column yields a value for which `pd.isna`
is true, and every `<`/`>` comparison against NaN is false — both are
modelled by `none`. -/
structure StratRow where
  close : Int
  high : Int
  low : Int
  ema50 : Option Int := none
  ema200 : Option Int := none
  cci1 : Option Int := none
deriving Repr, DecidableEq

/-- The `EMACCIStrategy` configuration (bot.py lines 101-107), with the
defaults of `Config.STRATEGIES['main_strategy']`. -/
structure EMACCIConfig where
  ema50_period : Nat := 50
  ema200_period : Nat := 200
  cci1_length : Nat := 100
  cci_long_level : Int := 100
  cci_short_level : Int := -100
deriving Repr, DecidableEq

/-- Attach the three indicator columns computed by TA-Lib to the rows,
position by position (the column assignments of bot.py lines 116-118). -/
def attach_indicators : List StratRow → List (Option Int) →
    List (Option Int) → List (Option Int) → List StratRow
  | r :: rs, a :: ta, b :: tb, c :: tc =>
      { r with ema50 := a, ema200 := b, cci1 := c }
        :: attach_indicators rs ta tb tc
  | rs, _, _, _ => rs

/-- Embeds `EMACCIStrategy.get_indicators` (bot.py lines 109-119): the input is
returned untouched when the frame is empty, when TA-Lib is unavailable,
or when the series is shorter than `ema200_period` (the strategy's
longest lookback under the shipped configuration); otherwise the EMA and
CCI columns produced by the external TA-Lib collaborator (passed in as
`ema` and `cci`) are attached. -/
def get_indicators (cfg : EMACCIConfig) (talib_available : Bool)
    (ema : Nat → List Int → List (Option Int))
    (cci : Nat → List Int → List Int → List Int → List (Option Int))
    (df : List StratRow) : List StratRow :=
  if df.isEmpty || !talib_available then df
  else if df.length < cfg.ema200_period then df
  else
    let closes := df.map (·.close)
    let highs := df.map (·.high)
    let lows := df.map (·.low)
    attach_indicators df
      (ema cfg.ema50_period closes)
      (ema cfg.ema200_period closes)
      (cci cfg.cci1_length highs lows closes)

/-- Embeds `EMACCIStrategy.check_signals` (bot.py lines 121-128), returning the
`signal_type` entry of the result dictionary.  A missing/NaN `ema200`
returns no signal immediately; a NaN `cci1` fails both threshold
comparisons (NaN comparisons are false in pandas), so no signal either. -/
def check_signals (cfg : EMACCIConfig) (latest_row : StratRow) :
    Option String :=
  match latest_row.ema200 with
  | none => none
  | some e =>
      match latest_row.cci1 with
      | none => none
      | some c =>
          if latest_row.close > e ∧ c > cfg.cci_long_level then some "long"
          else if latest_row.close < e ∧ c < cfg.cci_short_level then
            some "short"
          else none

/-! ## Persistence pool (src/core/data_manager.py, class DatabaseConnectionPool) -/

/-- Embeds `DatabaseConnectionPool._initialize_pool` (data_manager.py lines
20-27): pre-warm `min(3, max_connections)` connections into the queue.
Connections are interchangeable handles, so the queue is modelled by the
number of connections it holds. -/
def initialize_pool (max_connections : Nat) : Nat :=
  min 3 max_connections

/-- The constructor default `max_connections=50` (data_manager.py line
11), used by `DatabaseManager` which constructs the pool with defaults. -/
def default_max_connections : Nat := 50

/-- The constructor default `timeout=15` seconds (data_manager.py line 11). -/
def default_pool_timeout : Nat := 15

/-- Embeds `DatabaseConnectionPool.get_connection` (data_manager.py lines
37-41): a blocking `queue.get` with timeout.  It yields a queued
connection if one is present; otherwise it can only be satisfied by a
connection returned to the pool while it waits (`released_during_wait`
counts those); if neither exists within the timeout, the `queue.Empty`
is converted into `Exception("Database connection timeout")` — the
spec's `PoolTimeout`.  On success the result is the number of
connections still available; no connection is ever created here. -/
def get_connection (pool_size released_during_wait : Nat) :
    Except String Nat :=
  if pool_size > 0 then .ok (pool_size - 1)
  else if released_during_wait > 0 then .ok (released_during_wait - 1)
  else .error "Database connection timeout"

/-! ## Data freshness (src/exchange_apis.py, class BaseExchangeAPI) -/

/-- The dictionary returned by `validate_data_freshness`:
`data_age_seconds` is absent (`none`) on the disabled, empty-data and
error paths. -/
structure FreshnessReport where
  is_fresh : Bool
  data_age_seconds : Option Int
  message : String
deriving Repr, DecidableEq

/-- Embeds `BaseExchangeAPI.validate_data_freshness` (exchange_apis.py lines
22-53).  `open_times` is the `open_time` column of the DataFrame in
seconds since the epoch (the newest candle is `iloc[-1]`, i.e. the last
element); `now` is `datetime.now(timezone.utc)` in the same unit.  When
the check is disabled the function returns fresh immediately, computing
no age; on an empty frame it reports not fresh; otherwise
`is_fresh = data_age_seconds <= max_age_seconds`. -/
def validate_data_freshness (freshness_check_enabled : Bool)
    (max_age_seconds : Int) (open_times : List Int) (now : Int) :
    FreshnessReport :=
  if !freshness_check_enabled then
    ⟨true, none, "Validation disabled"⟩
  else
    match open_times.getLast? with
    | none => ⟨false, none, "No data available"⟩
    | some latest =>
        let age := now - latest
        if age ≤ max_age_seconds then
          ⟨true, some age, "Data is " ++ toString age ++ "s old."⟩
        else
          ⟨false, some age,
            "Data is " ++ toString age ++ "s old. (Stale, limit is "
              ++ toString max_age_seconds ++ "s)"⟩

/-- Embeds `MockExchangeAPI.get_historical_data` (exchange_apis.py lines
60-67): unless `force_fresh`, a non-empty cached series that passes the
freshness check is returned as-is; otherwise the freshly generated and
re-read series (`fresh_data`, produced by the external mock generator
and the candle store) is returned. -/
def get_historical_data (freshness_check_enabled : Bool)
    (max_age_seconds : Int) (cached : List Int) (now : Int)
    (force_fresh : Bool) (fresh_data : List Int) : List Int :=
  if !force_fresh && !cached.isEmpty
      && (validate_data_freshness freshness_check_enabled max_age_seconds
            cached now).is_fresh then
    cached
  else fresh_data

/-! ## Helper lemmas on association lists -/

theorem countP_eq_zero_of_lookup_none {α β : Type} [BEq α] [LawfulBEq α]
    (l : List (α × β)) (k : α) (h : l.lookup k = none) :
    l.countP (fun e => k == e.1) = 0 := by
  induction l with
  | nil => rfl
  | cons hd tl ih =>
      rw [List.lookup] at h
      rcases hbe : (k == hd.1) with _ | _
      · rw [hbe] at h
        simp only [List.countP_cons, hbe]
        simpa using ih h
      · rw [hbe] at h
        simp at h

theorem getFailure_setFailure (l : List (String × Nat)) (p : String) (n : Nat)
    (q : String) :
    getFailure (setFailure l p n) q = if q = p then n else getFailure l q := by
  induction l with
  | nil =>
      by_cases hqp : q = p
      · subst hqp
        simp [setFailure, getFailure, List.lookup]
      · have hbe : (q == p) = false := beq_eq_false_iff_ne.mpr hqp
        simp [setFailure, getFailure, List.lookup, hbe, hqp]
  | cons hd tl ih =>
      obtain ⟨a, m⟩ := hd
      by_cases hap : a = p
      · subst hap
        by_cases hqa : q = a
        · subst hqa
          simp [setFailure, getFailure, List.lookup]
        · have hbe : (q == a) = false := beq_eq_false_iff_ne.mpr hqa
          simp [setFailure, getFailure, List.lookup, hbe, hqa]
      · by_cases hqa : q = a
        · have hqp : ¬ q = p := fun hc => hap (hqa.symm.trans hc)
          have hbe : (q == a) = true := beq_iff_eq.mpr hqa
          simp [setFailure, getFailure, List.lookup, if_neg hap, hbe, hqp]
        · have hbe : (q == a) = false := beq_eq_false_iff_ne.mpr hqa
          simp only [setFailure, if_neg hap, getFailure, List.lookup, hbe]
          simpa [getFailure] using ih

theorem blacklist_pair_mem_self (h : HealthState) (p : String) :
    p ∈ (blacklist_pair h p).pair_blacklist := by
  unfold blacklist_pair
  split_ifs with hp
  · exact hp
  · exact List.mem_cons_self p h.pair_blacklist

theorem blacklist_pair_mem_mono (h : HealthState) (p q : String)
    (hq : q ∈ h.pair_blacklist) : q ∈ (blacklist_pair h p).pair_blacklist := by
  unfold blacklist_pair
  split_ifs with hp
  · exact hq
  · exact List.mem_cons_of_mem p hq

theorem blacklist_pair_api_failures (h : HealthState) (p : String) :
    (blacklist_pair h p).api_failures = h.api_failures := by
  unfold blacklist_pair
  split_ifs <;> rfl

/-- The invariant relating counters to the blacklist: every pair whose
failure count exceeds 5 is blacklisted. -/
def CounterInv (h : HealthState) : Prop :=
  ∀ p, getFailure h.api_failures p > 5 → p ∈ h.pair_blacklist

theorem counterInv_init (t : Int) : CounterInv (initHealth t) := by
  intro p hp
  simp [initHealth, getFailure, List.lookup] at hp

theorem counterInv_applyOp (h : HealthState) (op : HMOp)
    (hInv : CounterInv h) : CounterInv (applyOp h op) := by
  cases op with
  | apiFailure p =>
      intro q hq
      simp only [applyOp, record_api_failure] at hq ⊢
      by_cases hgt : getFailure h.api_failures p + 1 > 5
      · rw [if_pos hgt] at hq ⊢
        by_cases hqp : q = p
        · subst hqp
          exact blacklist_pair_mem_self _ q
        · rw [blacklist_pair_api_failures, getFailure_setFailure,
            if_neg hqp] at hq
          exact blacklist_pair_mem_mono _ p q (hInv q hq)
      · rw [if_neg hgt] at hq ⊢
        by_cases hqp : q = p
        · subst hqp
          rw [getFailure_setFailure, if_pos rfl] at hq
          exact absurd hq hgt
        · rw [getFailure_setFailure, if_neg hqp] at hq
          exact hInv q hq
  | dbFailure =>
      intro q hq
      exact hInv q hq
  | successfulCycle t =>
      intro q hq
      exact hInv q hq
  | blacklistPair p =>
      intro q hq
      rw [applyOp, blacklist_pair_api_failures] at hq
      exact blacklist_pair_mem_mono _ p q (hInv q hq)

theorem counterInv_runOps (ops : List HMOp) (h : HealthState)
    (hInv : CounterInv h) : CounterInv (runOps h ops) := by
  induction ops generalizing h with
  | nil => exact hInv
  | cons op rest ih => exact ih _ (counterInv_applyOp h op hInv)

theorem process_pair_preserves_health (auto : Bool) (eng : EngineState)
    (h : HealthState) (o : PairOutcome) :
    (process_pair auto eng h o).2 = h := by
  cases o <;> rfl

theorem foldl_process_pair_preserves_health (auto : Bool)
    (outcome : String → PairOutcome) (l : List PairInfo) :
    ∀ acc : EngineState × HealthState,
      (l.foldl (fun acc p => process_pair auto acc.1 acc.2 (outcome p.symbol))
        acc).2 = acc.2 := by
  induction l with
  | nil => intro acc; rfl
  | cons p rest ih =>
      intro acc
      rw [List.foldl_cons, ih]
      exact process_pair_preserves_health auto acc.1 acc.2 (outcome p.symbol)

theorem filter_of_filter_not {α : Type} (pr : α → Bool) (l : List α) :
    (l.filter (fun x => !(pr x))).filter pr = [] := by
  induction l with
  | nil => rfl
  | cons a t ih =>
      by_cases h : pr a = true
      · simp [List.filter_cons, h, ih]
      · have h' : pr a = false := by simpa using h
        simp [List.filter_cons, h', ih]

theorem upsertRow_filter_key (t : List CandleRow) (r : CandleRow) :
    (upsertRow t r).filter (fun x => rowKey x == rowKey r) = [r] := by
  unfold upsertRow
  rw [List.filter_append, filter_of_filter_not]
  simp [List.filter]

theorem save_candle_data_singleton (table : List CandleRow) (c : CandleInput)
    (p i : String) :
    save_candle_data table [c] p i = upsertRow table (mkRow p i c) := rfl

/-! ## Claim theorems: trading engine and kill switch -/

/-- C2: for every `(exchange, strategy, instrument)` key there is at most
one open ActiveTrade: with auto-trading enabled and no existing trade for
the signal's key, the first `execute_trades` returns true and records the
trade, an immediate second call with the same signal returns false and
leaves the state unchanged, exactly one trade exists for the key
afterwards; with auto-trading disabled or an existing trade for the key,
`execute_trades` returns false and changes nothing. -/
theorem execute_trades_at_most_one_per_key (st : EngineState) (s : Signals)
    (hnone : st.active_trades.lookup s.key = none) :
    (execute_trades true st s).1 = true
    ∧ (execute_trades true (execute_trades true st s).2 s).1 = false
    ∧ (execute_trades true (execute_trades true st s).2 s).2
        = (execute_trades true st s).2
    ∧ ((execute_trades true st s).2.active_trades.countP
        (fun e => s.key == e.1)) = 1
    ∧ (∀ (st' : EngineState) (s' : Signals),
        execute_trades false st' s' = (false, st'))
    ∧ (∀ (st' : EngineState) (s' : Signals) (tr : ActiveTrade),
        st'.active_trades.lookup s'.key = some tr →
          execute_trades true st' s' = (false, st')) := by
  refine ⟨?_, ?_, ?_, ?_, ?_, ?_⟩
  · simp [execute_trades, hnone]
  · simp [execute_trades, hnone, List.lookup]
  · simp [execute_trades, hnone, List.lookup]
  · simp [execute_trades, hnone, List.countP_cons,
      countP_eq_zero_of_lookup_none st.active_trades s.key hnone]
  · intro st' s'; simp [execute_trades]
  · intro st' s' tr h; simp [execute_trades, h]

/-- Witness for C2 at a concrete empty engine state and a concrete signal. -/
theorem execute_trades_at_most_one_per_key_witness :
    (execute_trades true ⟨[]⟩
        ⟨"coindcx", "B-BTC_USDT", 30000, "main_strategy", "long"⟩).1 = true :=
  (execute_trades_at_most_one_per_key ⟨[]⟩
    ⟨"coindcx", "B-BTC_USDT", 30000, "main_strategy", "long"⟩ rfl).1

/-- C1 (divergence): `execute_emergency_exit` does clear every trade, set
`trading_disabled` and report success, but the very next
`execute_trades` call — with `Config.AUTO_TRADING` still true, which the
kill switch never changes — opens a fresh trade, because `execute_trades`
consults only `Config.AUTO_TRADING` and never the kill switch's
`trading_disabled` flag.  So the claim's "every subsequent call to
execute_trades refuses to open a trade until trading is manually
re-enabled" fails on the code. -/
theorem emergency_exit_does_not_block_new_trades :
    (execute_emergency_exit initKillSwitch
        ⟨[(("coindcx", "main_strategy", "B-ETH_USDT"), ⟨2000, "long"⟩),
          (("coindcx", "trf_strategy", "B-BTC_USDT"), ⟨30000, "short"⟩)]⟩).2.1.active_trades = []
    ∧ (execute_emergency_exit initKillSwitch
        ⟨[(("coindcx", "main_strategy", "B-ETH_USDT"), ⟨2000, "long"⟩),
          (("coindcx", "trf_strategy", "B-BTC_USDT"), ⟨30000, "short"⟩)]⟩).1.trading_disabled = true
    ∧ (execute_emergency_exit initKillSwitch
        ⟨[(("coindcx", "main_strategy", "B-ETH_USDT"), ⟨2000, "long"⟩),
          (("coindcx", "trf_strategy", "B-BTC_USDT"), ⟨30000, "short"⟩)]⟩).2.2 = true
    ∧ (execute_trades true
        (execute_emergency_exit initKillSwitch
          ⟨[(("coindcx", "main_strategy", "B-ETH_USDT"), ⟨2000, "long"⟩),
            (("coindcx", "trf_strategy", "B-BTC_USDT"), ⟨30000, "short"⟩)]⟩).2.1
        ⟨"coindcx", "B-BTC_USDT", 30000, "main_strategy", "long"⟩).1 = true
    ∧ (execute_trades true
        (execute_emergency_exit initKillSwitch
          ⟨[(("coindcx", "main_strategy", "B-ETH_USDT"), ⟨2000, "long"⟩),
            (("coindcx", "trf_strategy", "B-BTC_USDT"), ⟨30000, "short"⟩)]⟩).2.1
        ⟨"coindcx", "B-BTC_USDT", 30000, "main_strategy", "long"⟩).2.active_trades
      ≠ [] := by
  refine ⟨rfl, rfl, rfl, rfl, ?_⟩
  simp [execute_emergency_exit, execute_trades, List.lookup]

/-! ## Claim theorems: candle store -/

/-- C5: upserting the same candle key `(instrument, interval, open_time)`
twice with (possibly different) OHLCV values leaves exactly one row for
that key in the candles table, carrying the second write's values:
`save_candle_data` is an idempotent replace-on-conflict write. -/
theorem save_candle_data_idempotent_replace (table : List CandleRow)
    (p i : String) (c1 c2 : CandleInput)
    (hkey : c1.open_time = c2.open_time) :
    (save_candle_data (save_candle_data table [c1] p i) [c2] p i).filter
      (fun x => rowKey x == (p, i, c2.open_time)) = [mkRow p i c2] := by
  rw [save_candle_data_singleton, save_candle_data_singleton]
  have hk : ((p, i, c2.open_time) : String × String × Int)
      = rowKey (mkRow p i c2) := rfl
  rw [hk]
  exact upsertRow_filter_key _ _

/-- Witness for C5: writing open_time 1000 for `B-BTC_USDT`/`5m` with two
different OHLCV payloads leaves exactly the second payload's row. -/
theorem save_candle_data_idempotent_replace_witness :
    (save_candle_data
        (save_candle_data [] [⟨1000, 1, 2, 3, 4, 5⟩] "B-BTC_USDT" "5m")
        [⟨1000, 9, 8, 7, 6, 5⟩] "B-BTC_USDT" "5m").filter
      (fun x => rowKey x == ("B-BTC_USDT", "5m", (1000 : Int)))
      = [mkRow "B-BTC_USDT" "5m" ⟨1000, 9, 8, 7, 6, 5⟩] :=
  save_candle_data_idempotent_replace [] "B-BTC_USDT" "5m"
    ⟨1000, 1, 2, 3, 4, 5⟩ ⟨1000, 9, 8, 7, 6, 5⟩ rfl

/-! ## Claim theorems: strategy framework -/

/-- C6: on a series shorter than the strategy's longest lookback window
(`ema200_period`, which dominates the other periods under the shipped
configuration), indicator enrichment returns the series unchanged, and
signal evaluation on any of its rows — in particular the latest one —
returns no signal; both are total functions, so nothing is thrown and no
default direction is produced. -/
theorem short_series_no_signal (cfg : EMACCIConfig)
    (ema : Nat → List Int → List (Option Int))
    (cci : Nat → List Int → List Int → List Int → List (Option Int))
    (df : List StratRow)
    (hraw : ∀ r ∈ df, r.ema200 = none)
    (hlongest : cfg.ema50_period ≤ cfg.ema200_period
      ∧ cfg.cci1_length ≤ cfg.ema200_period)
    (hshort : df.length < cfg.ema200_period) :
    get_indicators cfg true ema cci df = df
    ∧ ∀ r ∈ get_indicators cfg true ema cci df,
        check_signals cfg r = none := by
  have hid : get_indicators cfg true ema cci df = df := by
    unfold get_indicators
    by_cases he : df.isEmpty
    · simp [he]
    · simp [he, hshort]
  refine ⟨hid, ?_⟩
  intro r hr
  rw [hid] at hr
  simp [check_signals, hraw r hr]

/-- Witness for C6 at a one-row raw series against the shipped default
configuration. -/
theorem short_series_no_signal_witness :
    get_indicators {} true (fun _ _ => []) (fun _ _ _ _ => [])
        [⟨100, 101, 99, none, none, none⟩]
      = [⟨100, 101, 99, none, none, none⟩] :=
  (short_series_no_signal {} (fun _ _ => []) (fun _ _ _ _ => [])
    [⟨100, 101, 99, none, none, none⟩]
    (by decide) (by decide) (by decide)).1

/-! ## Claim theorems: health monitor and scheduler -/

/-- C3 (divergence): an exception during a pair's fetch/process step does
NOT increment that pair's failure counter — `process_pair`'s except
branch only logs, and `record_api_failure` has no caller in the
orchestrator — even though `record_api_failure` itself, when invoked,
does increment the counter and blacklists the pair once the count
exceeds 5.  Evaluated at a concrete failing input: pair `B-BTC_USDT`
with 3 recorded failures suffers a fetch exception and its counter is
still 3 afterwards. -/
theorem process_pair_exception_does_not_increment_counter :
    (process_pair true ⟨[]⟩ ⟨[("B-BTC_USDT", 3)], 0, 0, []⟩
        (.fetchError "API down")).2 = ⟨[("B-BTC_USDT", 3)], 0, 0, []⟩
    ∧ (run_tick true ⟨[]⟩ ⟨[("B-BTC_USDT", 3)], 0, 0, []⟩
        [⟨"B-BTC_USDT", "white"⟩] (fun _ => .fetchError "API down")).2
      = ⟨[("B-BTC_USDT", 3)], 0, 0, []⟩
    ∧ getFailure (record_api_failure ⟨[("B-BTC_USDT", 5)], 0, 0, []⟩
        "B-BTC_USDT").api_failures "B-BTC_USDT" = 6
    ∧ is_pair_blacklisted (record_api_failure ⟨[("B-BTC_USDT", 5)], 0, 0, []⟩
        "B-BTC_USDT") "B-BTC_USDT" = true := by
  exact ⟨rfl, rfl, rfl, rfl⟩

/-- C4: in every monitor state reachable from initialisation, a pair
whose failure count exceeds 5 is reported blacklisted by
`is_pair_blacklisted`, and the scheduler's fan-out filter
(`active_pairs`, bot.py line 307) excludes every pair with that symbol
from the spawned per-instrument tasks. -/
theorem blacklisted_pairs_excluded_from_fanout (t0 : Int) (ops : List HMOp)
    (p : String)
    (hcount : getFailure (runOps (initHealth t0) ops).api_failures p > 5) :
    is_pair_blacklisted (runOps (initHealth t0) ops) p = true
    ∧ ∀ (pairs : List PairInfo) (q : PairInfo),
        q ∈ active_pairs (runOps (initHealth t0) ops) pairs →
          q.symbol ≠ p := by
  have hmem : p ∈ (runOps (initHealth t0) ops).pair_blacklist :=
    counterInv_runOps ops _ (counterInv_init t0) p hcount
  have hbl : is_pair_blacklisted (runOps (initHealth t0) ops) p = true := by
    simpa [is_pair_blacklisted] using hmem
  refine ⟨hbl, ?_⟩
  intro pairs q hq hqp
  have hpred := (List.mem_filter.mp hq).2
  rw [hqp, hbl] at hpred
  simp at hpred

/-- Witness for C4: six recorded API failures for `B-XRP_USDT` take its
counter to 6 > 5, and the pair is then reported blacklisted. -/
theorem blacklisted_pairs_excluded_from_fanout_witness :
    is_pair_blacklisted
      (runOps (initHealth 0) (List.replicate 6 (.apiFailure "B-XRP_USDT")))
      "B-XRP_USDT" = true :=
  (blacklisted_pairs_excluded_from_fanout 0
    (List.replicate 6 (.apiFailure "B-XRP_USDT")) "B-XRP_USDT" (by decide)).1

/-- C9 (divergence): one scheduler tick — whatever the per-pair outcomes,
including every instrument succeeding — leaves the health-monitor state
(and with it the last-successful-cycle timestamp) unchanged: the run
loop never calls `record_successful_cycle` nor `check_process_health`.
The monitor's own operations do behave as the claim describes when
invoked: `record_successful_cycle` sets the timestamp and
`check_process_health` warns exactly when more than five refresh
intervals passed without success. -/
theorem run_tick_never_updates_liveness (auto : Bool) (eng : EngineState)
    (h : HealthState) (pairs : List PairInfo)
    (outcome : String → PairOutcome) (t now ri : Int) :
    (run_tick auto eng h pairs outcome).2 = h
    ∧ (record_successful_cycle h t).last_successful_cycle = t
    ∧ check_process_health h now ri
        = decide (now - h.last_successful_cycle > ri * 5) := by
  refine ⟨?_, rfl, rfl⟩
  exact foldl_process_pair_preserves_health auto outcome
    (active_pairs h pairs) (eng, h)

/-! ## Claim theorems: persistence pool -/

/-- C7: the pool is pre-warmed with 3 connections, strictly below the
default maximum of 50; acquisition fails with the pool-timeout error
exactly when no connection is queued and none becomes available during
the wait; and a successful acquisition only ever consumes an existing
connection — it never creates one (one connection is handed out, and
the connections still available never exceed what was already there). -/
theorem pool_prewarm_and_timeout (p r : Nat) :
    initialize_pool default_max_connections = 3
    ∧ initialize_pool default_max_connections < default_max_connections
    ∧ (get_connection p r = .error "Database connection timeout"
        ↔ (p = 0 ∧ r = 0))
    ∧ (∀ n, get_connection p r = .ok n → n + 1 ≤ p + r) := by
  refine ⟨rfl, by decide, ?_, ?_⟩
  · rcases p with _ | p
    · rcases r with _ | r
      · simp [get_connection]
      · simp [get_connection]
    · simp [get_connection]
  · intro n hn
    rcases p with _ | p
    · rcases r with _ | r
      · simp [get_connection] at hn
      · simp [get_connection] at hn
        omega
    · simp [get_connection] at hn
      omega

/-- Witness for C7: with an empty queue and nothing released during the
wait, acquisition fails with the timeout error. -/
theorem pool_prewarm_and_timeout_witness :
    get_connection 0 0 = .error "Database connection timeout" :=
  (pool_prewarm_and_timeout 0 0).2.2.1.mpr ⟨rfl, rfl⟩

/-! ## Claim theorems: data freshness -/

/-- C8: with the check enabled, a non-empty series whose newest candle
is at `latest` is reported stale at wall-clock `latest + 301` with
max-age 300 and fresh at `latest + 100`; in general `is_fresh` holds
exactly when the age `now - latest` does not exceed the threshold, and
the reported age is recomputed from the newest timestamp and the clock. -/
theorem freshness_report_thresholds (open_times : List Int) (latest : Int)
    (hlast : open_times.getLast? = some latest) :
    (validate_data_freshness true 300 open_times (latest + 301)).is_fresh
      = false
    ∧ (validate_data_freshness true 300 open_times (latest + 100)).is_fresh
      = true
    ∧ ∀ (max_age now : Int),
        ((validate_data_freshness true max_age open_times now).is_fresh = true
          ↔ now - latest ≤ max_age)
        ∧ (validate_data_freshness true max_age open_times
            now).data_age_seconds = some (now - latest) := by
  refine ⟨?_, ?_, ?_⟩
  · simp only [validate_data_freshness, Bool.not_true, hlast]
    rw [if_neg (by omega : ¬ (latest + 301 - latest ≤ (300 : Int)))]
    simp
  · simp only [validate_data_freshness, Bool.not_true, hlast]
    rw [if_pos (by omega : latest + 100 - latest ≤ (300 : Int))]
    simp
  · intro max_age now
    constructor
    · simp only [validate_data_freshness, Bool.not_true, hlast]
      by_cases hage : now - latest ≤ max_age
      · rw [if_pos hage]
        simpa using hage
      · rw [if_neg hage]
        simpa using hage
    · simp only [validate_data_freshness, Bool.not_true, hlast]
      by_cases hage : now - latest ≤ max_age
      · rw [if_pos hage]
        simp
      · rw [if_neg hage]
        simp

/-- Witness for C8 at the one-candle series `[0]`. -/
theorem freshness_report_thresholds_witness :
    (validate_data_freshness true 300 [0] 301).is_fresh = false :=
  (freshness_report_thresholds [0] 0 rfl).1

/-- C10: with the freshness-check flag off, `validate_data_freshness`
reports fresh for every input series — including the empty one —
without computing any age, and consequently `get_historical_data`
returns any non-empty cached series unchanged no matter how stale it is. -/
theorem disabled_freshness_check_accepts_stale (cached : List Int)
    (now max_age : Int) (fresh_data : List Int) (hne : cached ≠ []) :
    (∀ (data : List Int) (n m : Int),
        (validate_data_freshness false m data n).is_fresh = true
        ∧ (validate_data_freshness false m data n).data_age_seconds = none)
    ∧ get_historical_data false max_age cached now false fresh_data
        = cached := by
  refine ⟨fun data n m => ⟨rfl, rfl⟩, ?_⟩
  have hempty : cached.isEmpty = false := by
    simpa [List.isEmpty_iff] using hne
  simp [get_historical_data, validate_data_freshness, hempty]

/-- Witness for C10: the single cached candle stamped at the epoch is
returned unchanged two billion seconds later. -/
theorem disabled_freshness_check_accepts_stale_witness :
    get_historical_data false 300 [0] 2000000000 false [] = [0] :=
  (disabled_freshness_check_accepts_stale [0] 2000000000 300 []
    (by decide)).2

end Scalper
